import Mathlib

/-!
Verification development for the SMB CSI node server
(pkg/smb/nodeserver.go).  The Go functions are shallowly embedded as
executable Lean definitions: machine strings become Lean `String`/`List Char`,
byte slices become `List Nat` (each element below 256), fallible calls return
`Except`/`Option`, and the operating-system primitives consumed by the node
server (mount, unmount, stat, readdir, ...) are supplied as explicit
environment data so that every control-flow branch of the Go code is
represented.
-/

/-! ## String helpers mirroring the Go standard library -/

/-- Model of strings.TrimRight(s, "/"): drop every trailing slash character. -/
def trimTrailingSlashes (s : String) : String :=
  String.mk ((s.data.reverse.dropWhile (fun c => c = '/')).reverse)

/-- Model of strings.ReplaceAll for a single-character pattern and a
single-character replacement: substitution applied to every character. -/
def goReplaceAllChars (s : List Char) (old new : Char) : List Char :=
  s.map (fun c => if c = old then new else c)

/-- Model of strings.ReplaceAll for arbitrary (non-empty) patterns:
non-overlapping left-to-right replacement.  The Go behaviour for an empty
pattern (inserting between every character) is never exercised by the node
server, whose patterns are the fixed placeholder tokens. -/
def goReplaceAllFuel : Nat → List Char → List Char → List Char → List Char
  | 0, s, _, _ => s
  | fuel + 1, s, old, new =>
    match s with
    | [] => []
    | c :: rest =>
      if old ≠ [] ∧ old.isPrefixOf (c :: rest) then
        new ++ goReplaceAllFuel fuel ((c :: rest).drop old.length) old new
      else
        c :: goReplaceAllFuel fuel rest old new

/-- The replacement scan consumes at least one input character per step, so
the input length bounds the number of steps. -/
def goReplaceAll (s old new : List Char) : List Char :=
  goReplaceAllFuel s.length s old new

/-- Model of strconv.Atoi digit accumulation. -/
def digitsVal (ds : List Char) : Int :=
  ds.foldl (fun a c => a * 10 + (Int.ofNat (c.toNat - 48))) 0

/-- Model of strconv.Atoi: optional sign followed by one or more decimal
digits; anything else is a parse error (`none`).  Machine-integer range
checks are not modelled. -/
def goAtoi (s : String) : Option Int :=
  let p : Int × List Char :=
    match s.data with
    | '+' :: r => (1, r)
    | '-' :: r => (-1, r)
    | r => (1, r)
  if p.2 = [] ∨ ¬ p.2.all Char.isDigit then none
  else some (p.1 * digitsVal p.2)

/-- Model of strings.ToLower (ASCII case mapping, the only case arising for
the fixed keys involved). -/
def goToLower (s : String) : String := String.mk (s.data.map Char.toLower)

/-- Model of strings.HasPrefix. -/
def goHasPrefixStr (s pre : String) : Bool := pre.data.isPrefixOf s.data

/-- Model of strings.TrimSpace (ASCII whitespace). -/
def goTrimSpace (s : String) : String :=
  String.mk (((s.data.dropWhile Char.isWhitespace).reverse.dropWhile
    Char.isWhitespace).reverse)

/-- Drop the first n characters (strings.TrimPrefix once the prefix is
known to be present). -/
def goDropChars (s : String) (n : Nat) : String := String.mk (s.data.drop n)

/-! ## Base64 (encoding/base64 StdEncoding) -/

/-- The standard base64 alphabet, in index order. -/
def b64Chars : List Char :=
  "ABCDEFGHIJKLMNOPQRSTUVWXYZabcdefghijklmnopqrstuvwxyz0123456789+/".data

/-- Character for a sextet value (0..63). -/
def b64Char (n : Nat) : Char := b64Chars.getD n 'A'

/-- Index of a character in the base64 alphabet; 64 when absent. -/
def b64Index (c : Char) : Nat := b64Chars.findIdx (fun d => d = c)

/-- A character is a valid (non-padding) base64 symbol. -/
def b64SextOK (c : Char) : Bool := b64Index c < 64

/-- Model of base64.StdEncoding.EncodeToString over a byte list. -/
def b64EncodeBytes : List Nat → List Char
  | [] => []
  | [b0] =>
    [b64Char (b0 / 4), b64Char (b0 % 4 * 16), '=', '=']
  | [b0, b1] =>
    [b64Char (b0 / 4), b64Char (b0 % 4 * 16 + b1 / 16), b64Char (b1 % 16 * 4), '=']
  | b0 :: b1 :: b2 :: rest =>
    b64Char (b0 / 4) :: b64Char (b0 % 4 * 16 + b1 / 16) ::
      b64Char (b1 % 16 * 4 + b2 / 64) :: b64Char (b2 % 64) :: b64EncodeBytes rest

/-- Model of base64.StdEncoding.DecodeString: four-character quanta, padding
allowed only in the final quantum, invalid symbols rejected.  Non-zero
trailing bits are ignored, as in Go's non-strict decoder. -/
def b64DecodeChars : List Char → Option (List Nat)
  | c0 :: c1 :: c2 :: c3 :: rest =>
    if c2 = '=' ∧ c3 = '=' ∧ rest = [] then
      if b64SextOK c0 ∧ b64SextOK c1 then
        some [b64Index c0 * 4 + b64Index c1 / 16]
      else none
    else if c3 = '=' ∧ rest = [] then
      if b64SextOK c0 ∧ b64SextOK c1 ∧ b64SextOK c2 then
        some [b64Index c0 * 4 + b64Index c1 / 16,
              b64Index c1 % 16 * 16 + b64Index c2 / 4]
      else none
    else
      if b64SextOK c0 ∧ b64SextOK c1 ∧ b64SextOK c2 ∧ b64SextOK c3 then
        match b64DecodeChars rest with
        | some bs =>
          some ([b64Index c0 * 4 + b64Index c1 / 16,
                 b64Index c1 % 16 * 16 + b64Index c2 / 4,
                 b64Index c2 % 4 * 64 + b64Index c3] ++ bs)
        | none => none
      else none
  | [] => some []
  | _ => none

lemma b64Index_b64Char_fin : ∀ n : Fin 64, b64Index (b64Char n.val) = n.val := by
  decide

lemma b64Index_b64Char {n : Nat} (h : n < 64) : b64Index (b64Char n) = n :=
  b64Index_b64Char_fin ⟨n, h⟩

lemma b64SextOK_b64Char {n : Nat} (h : n < 64) : b64SextOK (b64Char n) = true := by
  simp [b64SextOK, b64Index_b64Char h, h]

lemma b64Char_ne_pad_fin : ∀ n : Fin 64, b64Char n.val ≠ '=' := by
  decide

lemma b64Char_ne_pad {n : Nat} (h : n < 64) : b64Char n ≠ '=' :=
  b64Char_ne_pad_fin ⟨n, h⟩

/-- Decoding is a left inverse of encoding on genuine byte lists. -/
theorem b64_decode_encode (v : List Nat) (h : ∀ b ∈ v, b < 256) :
    b64DecodeChars (b64EncodeBytes v) = some v := by
  induction v using b64EncodeBytes.induct with
  | case1 =>
    simp [b64EncodeBytes, b64DecodeChars]
  | case2 b0 =>
    have h0 : b0 < 256 := h b0 (by simp)
    have e0 : b0 / 4 < 64 := by omega
    have e1 : b0 % 4 * 16 < 64 := by omega
    simp only [b64EncodeBytes, b64DecodeChars]
    rw [if_pos (by simp),
        if_pos ⟨by simp [b64SextOK_b64Char e0], by simp [b64SextOK_b64Char e1]⟩]
    rw [b64Index_b64Char e0, b64Index_b64Char e1]
    simp only [Option.some.injEq, List.cons.injEq, and_true]
    omega
  | case3 b0 b1 =>
    have h0 : b0 < 256 := h b0 (by simp)
    have h1 : b1 < 256 := h b1 (by simp)
    have e0 : b0 / 4 < 64 := by omega
    have e1 : b0 % 4 * 16 + b1 / 16 < 64 := by omega
    have e2 : b1 % 16 * 4 < 64 := by omega
    simp only [b64EncodeBytes, b64DecodeChars]
    rw [if_neg (by simp [b64Char_ne_pad e2]),
        if_pos (by simp),
        if_pos ⟨by simp [b64SextOK_b64Char e0], by simp [b64SextOK_b64Char e1],
                by simp [b64SextOK_b64Char e2]⟩]
    rw [b64Index_b64Char e0, b64Index_b64Char e1, b64Index_b64Char e2]
    simp only [Option.some.injEq, List.cons.injEq, and_true]
    exact ⟨by omega, by omega⟩
  | case4 b0 b1 b2 rest ih =>
    have h0 : b0 < 256 := h b0 (by simp)
    have h1 : b1 < 256 := h b1 (by simp)
    have h2 : b2 < 256 := h b2 (by simp)
    have hrest : ∀ b ∈ rest, b < 256 := by
      intro b hb
      exact h b (by simp [hb])
    have e0 : b0 / 4 < 64 := by omega
    have e1 : b0 % 4 * 16 + b1 / 16 < 64 := by omega
    have e2 : b1 % 16 * 4 + b2 / 64 < 64 := by omega
    have e3 : b2 % 64 < 64 := by omega
    simp only [b64EncodeBytes, b64DecodeChars]
    rw [if_neg (by simp [b64Char_ne_pad e2]),
        if_neg (by simp [b64Char_ne_pad e3]),
        if_pos ⟨by simp [b64SextOK_b64Char e0], by simp [b64SextOK_b64Char e1],
                by simp [b64SextOK_b64Char e2], by simp [b64SextOK_b64Char e3]⟩]
    rw [ih hrest]
    rw [b64Index_b64Char e0, b64Index_b64Char e1, b64Index_b64Char e2,
        b64Index_b64Char e3]
    simp only [List.cons_append, List.nil_append, Option.some.injEq,
      List.cons.injEq, and_true]
    exact ⟨by omega, by omega, by omega⟩

/-! ## Volume cache-file naming (volumeKerberosCacheName) -/

/-- Name of the cache file for a volume: standard base64 of the VolumeID
bytes, then strings.ReplaceAll of slash by dash and of plus by underscore
(nodeserver.go, volumeKerberosCacheName). -/
def volumeKerberosCacheName (volumeID : List Nat) : String :=
  String.mk (goReplaceAllChars (goReplaceAllChars (b64EncodeBytes volumeID) '/' '-') '+' '_')

/-- Inverse of the filename transformation: undo the character substitutions
and base64-decode. -/
def volumeKerberosCacheNameDecode (s : String) : Option (List Nat) :=
  b64DecodeChars (goReplaceAllChars (goReplaceAllChars s.data '_' '+') '-' '/')

lemma b64EncodeBytes_chars (v : List Nat) (hv : ∀ b ∈ v, b < 256) :
    ∀ c ∈ b64EncodeBytes v, c = '=' ∨ ∃ n, n < 64 ∧ c = b64Char n := by
  induction v using b64EncodeBytes.induct with
  | case1 => simp [b64EncodeBytes]
  | case2 b0 =>
    have h0 : b0 < 256 := hv b0 (by simp)
    intro c hc
    simp only [b64EncodeBytes, List.mem_cons, List.not_mem_nil, or_false] at hc
    rcases hc with h | h | h | h
    · exact Or.inr ⟨b0 / 4, by omega, h⟩
    · exact Or.inr ⟨b0 % 4 * 16, by omega, h⟩
    · exact Or.inl h
    · exact Or.inl h
  | case3 b0 b1 =>
    have h0 : b0 < 256 := hv b0 (by simp)
    have h1 : b1 < 256 := hv b1 (by simp)
    intro c hc
    simp only [b64EncodeBytes, List.mem_cons, List.not_mem_nil, or_false] at hc
    rcases hc with h | h | h | h
    · exact Or.inr ⟨b0 / 4, by omega, h⟩
    · exact Or.inr ⟨b0 % 4 * 16 + b1 / 16, by omega, h⟩
    · exact Or.inr ⟨b1 % 16 * 4, by omega, h⟩
    · exact Or.inl h
  | case4 b0 b1 b2 rest ih =>
    have h0 : b0 < 256 := hv b0 (by simp)
    have h1 : b1 < 256 := hv b1 (by simp)
    have h2 : b2 < 256 := hv b2 (by simp)
    have hrest : ∀ b ∈ rest, b < 256 := by
      intro b hb
      exact hv b (by simp [hb])
    intro c hc
    simp only [b64EncodeBytes, List.mem_cons] at hc
    rcases hc with h | h | h | h | h
    · exact Or.inr ⟨b0 / 4, by omega, h⟩
    · exact Or.inr ⟨b0 % 4 * 16 + b1 / 16, by omega, h⟩
    · exact Or.inr ⟨b1 % 16 * 4 + b2 / 64, by omega, h⟩
    · exact Or.inr ⟨b2 % 64, by omega, h⟩
    · exact ih hrest c h

lemma unreplace_replace_char {c : Char} (h : c = '=' ∨ ∃ n, n < 64 ∧ c = b64Char n) :
    (let f1 := fun d => if d = '/' then '-' else d
     let f2 := fun d => if d = '+' then '_' else d
     let g2 := fun d => if d = '_' then '+' else d
     let g1 := fun d => if d = '-' then '/' else d
     g1 (g2 (f2 (f1 c)))) = c := by
  rcases h with h | ⟨n, hn, h⟩
  · simp [h]
  · subst h
    exact (by decide : ∀ m : Fin 64,
      (let f1 := fun d => if d = '/' then '-' else d
       let f2 := fun d => if d = '+' then '_' else d
       let g2 := fun d => if d = '_' then '+' else d
       let g1 := fun d => if d = '-' then '/' else d
       g1 (g2 (f2 (f1 (b64Char m.val))))) = b64Char m.val) ⟨n, hn⟩

/-- The filename substitutions are undone by the reverse substitutions on
every base64-alphabet character, hence the full decode inverts the full
name construction. -/
theorem volumeKerberosCacheName_decode (v : List Nat) (hv : ∀ b ∈ v, b < 256) :
    volumeKerberosCacheNameDecode (volumeKerberosCacheName v) = some v := by
  have hchars := b64EncodeBytes_chars v hv
  unfold volumeKerberosCacheNameDecode volumeKerberosCacheName
  simp only [goReplaceAllChars, List.map_map]
  have heq : ∀ l : List Char, (∀ c ∈ l, c = '=' ∨ ∃ n, n < 64 ∧ c = b64Char n) →
      List.map
        ((fun c => if c = '-' then '/' else c) ∘ (fun c => if c = '_' then '+' else c) ∘
         (fun c => if c = '+' then '_' else c) ∘ (fun c => if c = '/' then '-' else c)) l
      = l := by
    intro l hl
    induction l with
    | nil => rfl
    | cons a t ih =>
      have ha : ((fun c => if c = '-' then '/' else c) ∘ (fun c => if c = '_' then '+' else c) ∘
          (fun c => if c = '+' then '_' else c) ∘ (fun c => if c = '/' then '-' else c)) a = a := by
        show _ = a
        simp only [Function.comp_apply]
        exact unreplace_replace_char (hl a (by simp))
      simp only [List.map_cons, ha, ih (fun c hc => hl c (by simp [hc]))]
  rw [heq _ hchars]
  exact b64_decode_encode v hv

/-- volumeKerberosCacheName is injective on byte lists. -/
theorem volumeKerberosCacheName_injective (v1 v2 : List Nat)
    (h1 : ∀ b ∈ v1, b < 256) (h2 : ∀ b ∈ v2, b < 256)
    (h : volumeKerberosCacheName v1 = volumeKerberosCacheName v2) : v1 = v2 := by
  have d1 := volumeKerberosCacheName_decode v1 h1
  have d2 := volumeKerberosCacheName_decode v2 h2
  rw [h, d2] at d1
  exact (Option.some.injEq _ _ ▸ d1).symm ▸ rfl

/-! ## Shared constants

The string constants below are referenced by nodeserver.go but defined in a
sibling file of the package that is not part of the sources at hand; their
values are taken from the specification's list of recognized context keys,
secret keys and filesystem layout. -/

/-- Modelled from the spec: context key for the remote share root. -/
def sourceField : String := "source"

/-- Modelled from the spec: context key for the appended sub-path. -/
def subDirField : String := "subdir"

/-- Modelled from the spec: context key carrying the PVC namespace. -/
def pvcNamespaceKey : String := "csi.storage.k8s.io/pvc/namespace"

/-- Modelled from the spec: context key carrying the PVC name. -/
def pvcNameKey : String := "csi.storage.k8s.io/pvc/name"

/-- Modelled from the spec: context key carrying the PV name. -/
def pvNameKey : String := "csi.storage.k8s.io/pv/name"

/-- Modelled from the spec: placeholder token replaced by the PVC namespace. -/
def pvcNamespaceMetadata : String := "$\x7bpvc.metadata.namespace\x7d"

/-- Modelled from the spec: placeholder token replaced by the PVC name. -/
def pvcNameMetadata : String := "$\x7bpvc.metadata.name\x7d"

/-- Modelled from the spec: placeholder token replaced by the PV name. -/
def pvNameMetadata : String := "$\x7bpv.metadata.name\x7d"

/-- Modelled from the spec: secret key for the username. -/
def usernameField : String := "username"

/-- Modelled from the spec: secret key for the password. -/
def passwordField : String := "password"

/-- Modelled from the spec: secret key for the domain. -/
def domainField : String := "domain"

/-- Modelled from the spec: the canonical cache files are named
krb5cc_(credential UID). -/
def krb5PrefixStr : String := "krb5cc_"

/-- Modelled from the spec: the configured ticket-cache directory (its exact
path is deployment configuration; no result below depends on its value). -/
def krb5CacheDirectory : String := "/var/lib/kubelet/kerberos/"

/-- The cruid= mount-flag key (local constant of getCredUID in the source). -/
def cruidPrefixStr : String := "cruid="

/-! ## Mount-flag helpers (nodeserver.go) -/

/-- checkGidPresentInMountFlags: some flag starts with gid. -/
def checkGidPresentInMountFlags (mountFlags : List String) : Bool :=
  mountFlags.any (fun f => goHasPrefixStr f "gid")

/-- hasKerberosMountOption: some flag starts with sec=krb5. -/
def hasKerberosMountOption (mountFlags : List String) : Bool :=
  mountFlags.any (fun f => goHasPrefixStr f "sec=krb5")

/-- Modelled from the spec: guest-mode mount flags suppress the
username/password requirement; the predicate (defined outside the sources at
hand) recognises a literal guest mount option. -/
def hasGuestMountOptions (mountFlags : List String) : Bool :=
  mountFlags.any (fun f => f = "guest")

/-- getCredUID: parse the first cruid= flag with strconv.Atoi; an error when
no flag matches or the number does not parse. -/
def getCredUID (mountFlags : List String) : Except Unit Int :=
  match mountFlags.find? (fun f => goHasPrefixStr f cruidPrefixStr) with
  | some f =>
    match goAtoi (goDropChars f cruidPrefixStr.length) with
    | some n => .ok n
    | none => .error ()
  | none => .error ()

/-- getKrb5CcacheName: krb5cc_(credUID). -/
def getKrb5CcacheName (credUID : Int) : String :=
  krb5PrefixStr ++ toString credUID

/-- getKerberosFilePath: absolute path of a file inside the cache
directory. -/
def getKerberosFilePath (fileName : String) : String :=
  krb5CacheDirectory ++ fileName

/-! ## Kerberos cache directory state

The cache directory is modelled as an association list from file name to
entry (regular file with content, or symlink with an absolute target), plus
the outcome that os.Stat reports for the directory itself.  File-level
writes, removals and symlink creations are modelled on their success path;
ownership (os.Chown) carries no information used by any claim and is not
recorded. -/

/-- A directory entry: a regular file or a symlink. -/
inductive Entry where
  | file (content : List Nat)
  | symlink (target : String)
deriving DecidableEq

/-- Outcome of an os.Stat call. -/
inductive StatOutcome where
  | ok
  | notExist
  | otherError (msg : String)
deriving DecidableEq

/-- State of the kerberos cache directory. -/
structure KrbFS where
  dirStat : StatOutcome
  entries : List (String × Entry)
deriving DecidableEq

/-- Remove every entry with the given name (os.Remove success path). -/
def fsRemove (d : List (String × Entry)) (n : String) : List (String × Entry) :=
  d.filter (fun e => e.1 ≠ n)

/-- Write a regular file (os.WriteFile success path; the entry under the
name is replaced). -/
def fsWrite (d : List (String × Entry)) (n : String) (c : List Nat) :
    List (String × Entry) :=
  (n, Entry.file c) :: fsRemove d n

/-- Look up the entry with the given name (os.Stat / os.Lstat of a file). -/
def fsLookup (d : List (String × Entry)) (n : String) : Option Entry :=
  (d.find? (fun e => e.1 = n)).map (fun e => e.2)

/-- Whether an entry is a symlink with the given target (os.Lstat followed
by os.Readlink, as in the cleanup scan). -/
def entryIsSymlinkTo (e : Entry) (t : String) : Bool :=
  match e with
  | .symlink u => u = t
  | .file _ => false

/-! ## Kerberos cache errors -/

/-- Errors produced inside the credential-cache manager.  Constructors stand
for the distinct error sites of the source; the gRPC codes attached at those
sites are recorded where the callers inspect them. -/
inductive KerbErr where
  | dirMissing (dir : String)
  | dirStatFailed (msg : String)
  | credUIDNotFound
  | emptyKerberosCache (key : String)
  | malformedKerberosCache (key : String)
deriving DecidableEq

/-- kerberosCacheDirectoryExists: false with an internal-code error when the
directory is absent, false with the raw stat error on any other stat
failure, true with no error otherwise. -/
def kerberosCacheDirectoryExists (o : StatOutcome) : Bool × Option KerbErr :=
  match o with
  | .notExist => (false, some (.dirMissing krb5CacheDirectory))
  | .otherError m => (false, some (.dirStatFailed m))
  | .ok => (true, none)

/-- getKerberosCache: locate the ticket blob among the secrets under the
canonical cache name for the credential UID (keys compared lowercased),
base64-decode it, and return the canonical absolute path with the content. -/
def getKerberosCache (credUID : Int) (secrets : List (String × String)) :
    Except KerbErr (String × List Nat) :=
  let krb5CcacheName := getKrb5CcacheName credUID
  let krb5CcacheContent :=
    secrets.foldl (fun acc kv => if goToLower kv.1 = krb5CcacheName then kv.2 else acc) ""
  if krb5CcacheContent = "" then .error (.emptyKerberosCache krb5CcacheName)
  else
    match b64DecodeChars krb5CcacheContent.data with
    | none => .error (.malformedKerberosCache krb5CcacheName)
    | some content => .ok (getKerberosFilePath krb5CcacheName, content)

/-- ensureKerberosCache: when a sec=krb5 flag is present, require the cache
directory, parse the credential UID, fetch and decode the ticket, write it
to the volume-named file, remove any previous canonical symlink and create
a fresh one pointing at the volume-named file.  Returns whether the
kerberos path was engaged, with the updated directory state. -/
def ensureKerberosCache (volumeID : List Nat) (mountFlags : List String)
    (secrets : List (String × String)) (fs : KrbFS) :
    Except KerbErr (Bool × KrbFS) :=
  if hasKerberosMountOption mountFlags then
    match (kerberosCacheDirectoryExists fs.dirStat).2 with
    | some e => .error e
    | none =>
      match getCredUID mountFlags with
      | .error _ => .error .credUIDNotFound
      | .ok credUID =>
        match getKerberosCache credUID secrets with
        | .error e => .error e
        | .ok (_, content) =>
          let volumeIDCacheFileName := volumeKerberosCacheName volumeID
          let volumeIDCacheAbsolutePath := getKerberosFilePath volumeIDCacheFileName
          let ccName := getKrb5CcacheName credUID
          let d1 := fsWrite fs.entries volumeIDCacheFileName content
          let d2 := fsRemove d1 ccName
          let d3 := (ccName, Entry.symlink volumeIDCacheAbsolutePath) :: d2
          .ok (true, { fs with entries := d3 })
  else .ok (false, fs)

/-- deleteKerberosCache: a no-op unless the directory stat succeeds and the
volume-named file exists; otherwise remove every symlink in the directory
whose target is the volume-named file's absolute path, then remove the file
itself (both removals best-effort in the source; modelled on their success
path). -/
def deleteKerberosCache (volumeID : List Nat) (fs : KrbFS) :
    Except KerbErr Unit × KrbFS :=
  let p := kerberosCacheDirectoryExists fs.dirStat
  if p.1 = false then (.ok (), fs)
  else
    match p.2 with
    | some e => (.error e, fs)
    | none =>
      let volumeIDCacheFileName := volumeKerberosCacheName volumeID
      let volumeIDCacheAbsolutePath := getKerberosFilePath volumeIDCacheFileName
      match fsLookup fs.entries volumeIDCacheFileName with
      | none => (.ok (), fs)
      | some _ =>
        let d1 := fs.entries.filter
          (fun e => ¬ entryIsSymlinkTo e.2 volumeIDCacheAbsolutePath)
        let d2 := fsRemove d1 volumeIDCacheFileName
        (.ok (), { fs with entries := d2 })

/-! ## gRPC status codes and error sites -/

/-- The gRPC codes used by the node server.  unknown is the code grpc-go
assigns to an error that is not a status error. -/
inductive Code where
  | okCode
  | invalidArgument
  | aborted
  | internal
  | notFound
  | unimplemented
  | unknown
deriving DecidableEq

/-- One constructor per distinct error construction site of nodeserver.go,
carrying the data interpolated into the message at that site. -/
inductive ErrSite where
  | volumeIDMissing
  | capabilityMissing
  | stagingTargetMissing
  | targetPathMissing
  | targetPathMissingUnpublish
  | sourceFieldMissing
  | operationAlreadyExists (volumeID : List Nat)
  | kerberosWriteFailed (inner : KerbErr)
  | mkdirFailed (path : String) (msg : String)
  | couldNotMountTarget (target : String) (msg : String)
  | prepareStageFailed (path : String) (msg : String)
  | preparePublishFailed (path : String) (msg : String)
  | mountTimeout (volumeID : List Nat) (source target : String)
  | mountFailed (volumeID : List Nat) (source target : String) (msg : String)
  | couldNotRemoveMountTarget (target : String) (msg : String)
  | couldNotBindMount (source target : String) (msg : String)
  | unmountTargetFailed (target : String) (msg : String)
  | unmountStagingFailed (target : String) (msg : String)
  | deleteKerberosCacheFailed (inner : KerbErr)
  | statsVolumeIDEmpty
  | statsVolumePathEmpty
  | pathNotExist (path : String)
  | statFileFailed (path : String) (msg : String)
  | getMetricsFailed (msg : String)
  | transformNotOk (field : String)
  | expandUnimplemented
deriving DecidableEq

/-- An error returned by a handler: either a status error with a gRPC code
(status.Error / status.Errorf) or a plain error built with fmt.Errorf. -/
inductive GoErr where
  | grpc (code : Code) (site : ErrSite)
  | plain (site : ErrSite)
deriving DecidableEq

/-- The gRPC code a caller observes: the attached code for a status error,
unknown for a plain error (grpc-go's conversion of non-status errors). -/
def grpcCodeOf (e : GoErr) : Code :=
  match e with
  | .grpc c _ => c
  | .plain _ => .unknown

/-! ## ensureMountPoint (the path mount prober) -/

/-- Error reported by the IsLikelyNotMountPoint primitive, with the
os.IsNotExist classification of it. -/
structure ProbeErr where
  isNotExist : Bool
  msg : String
deriving DecidableEq

/-- Outcomes of the operating-system primitives consumed by one
ensureMountPoint call (non-Windows build: the mount-table walk runs). -/
structure ProbeEnv where
  isLikelyNotMountPointR : Bool × Option ProbeErr
  isCorruptedDir : Bool
  listR : Except String (List String)
  absTargetR : Except String String
  readDirR : Option String
  unmountR : Option String
  makeDirR : Option String

/-- Continuation of ensureMountPoint after the initial probe fixed the
notMnt verdict: mount-table walk, directory-listing validation with
unmount-based recovery, or directory creation.  The second component of the
result records whether the recovery unmount was invoked. -/
def ensureMountPointRest (env : ProbeEnv) (notMnt : Bool) :
    (Bool × Option String) × Bool :=
  match env.listR with
  | .error m => ((¬ notMnt, some m), false)
  | .ok mountList =>
    match env.absTargetR with
    | .error m => ((¬ notMnt, some m), false)
    | .ok targetAbs =>
      let notMnt2 := if mountList.contains targetAbs then false else notMnt
      if notMnt2 = false then
        match env.readDirR with
        | none => ((¬ notMnt2, none), false)
        | some rdErr =>
          match env.unmountR with
          | some ue => ((¬ notMnt2, some ue), true)
          | none => ((false, some rdErr), true)
      else
        match env.makeDirR with
        | some me => ((¬ notMnt2, some me), false)
        | none => ((false, none), false)

/-- ensureMountPoint: initial IsLikelyNotMountPoint probe with the
corrupted-directory override, then the continuation above.  Result is the
(isMounted, error) pair of the source together with the unmount-invoked
flag. -/
def ensureMountPoint (env : ProbeEnv) : (Bool × Option String) × Bool :=
  match env.isLikelyNotMountPointR with
  | (notMnt, some e) =>
    if ¬ e.isNotExist then
      if env.isCorruptedDir then ensureMountPointRest env false
      else ((¬ notMnt, some e.msg), false)
    else ensureMountPointRest env notMnt
  | (notMnt, none) => ensureMountPointRest env notMnt

/-! ## NodeStageVolume -/

/-- One invocation of the opaque mount primitive, with its arguments. -/
structure MountCall where
  source : String
  target : String
  fstype : String
  options : List String
  sensitiveOptions : List String
deriving DecidableEq

/-- Behaviour of the mount primitive inside the polling loop: it either
completes (successfully or with an error) or never returns. -/
inductive MountBehavior where
  | hangs
  | completes (err : Option String)
deriving DecidableEq

/-- wait.PollImmediate applied to the stage-mount closure: the closure runs
the mount, sets mountComplete and returns done=true, so the poll finishes
with the first completed attempt; when the mount primitive never returns
the poll never returns either (none). -/
def pollImmediateMount (behavior : MountBehavior) : Option (Bool × Option String) :=
  match behavior with
  | .hangs => none
  | .completes e => some (true, e)

/-- The poll interval of the stage mount loop, in seconds (1*time.Second). -/
def stagePollIntervalSeconds : Nat := 1

/-- The poll bound of the stage mount loop, in seconds (2*time.Minute). -/
def stagePollTimeoutSeconds : Nat := 120

/-- The fields of a NodeStageVolumeRequest consumed by the handler.  The
VolumeID is kept as its byte sequence. -/
structure StageReq where
  volumeID : List Nat
  hasVolumeCapability : Bool
  stagingTargetPath : String
  volumeContext : List (String × String)
  mountFlags : List String
  volumeMountGroup : String
  secrets : List (String × String)
deriving DecidableEq

/-- Outcomes of the external calls made by one NodeStageVolume invocation
(non-Windows build). -/
structure StageEnv where
  lockAcquired : Bool
  krbFS : KrbFS
  mkdirR : Option String
  ensureMountPointR : Bool × Option String
  prepareStageR : Option String
  mountR : MountBehavior
deriving DecidableEq

/-- Accumulator of the context loop of NodeStageVolume (lines 133-148). -/
structure StageCtx where
  source : String
  subDir : String
  subDirReplaceMap : List (String × String)
deriving DecidableEq

/-- Overwriting insertion into the association list standing for a Go map. -/
def insertAssoc (m : List (String × String)) (k v : String) : List (String × String) :=
  m.filter (fun e => e.1 ≠ k) ++ [(k, v)]

/-- The context loop: case-insensitive dispatch on each key. -/
def parseStageContext (ctx : List (String × String)) : StageCtx :=
  ctx.foldl
    (fun acc kv =>
      let lk := goToLower kv.1
      if lk = sourceField then { acc with source := kv.2 }
      else if lk = subDirField then { acc with subDir := kv.2 }
      else if lk = pvcNamespaceKey then
        { acc with subDirReplaceMap := insertAssoc acc.subDirReplaceMap pvcNamespaceMetadata kv.2 }
      else if lk = pvcNameKey then
        { acc with subDirReplaceMap := insertAssoc acc.subDirReplaceMap pvcNameMetadata kv.2 }
      else if lk = pvNameKey then
        { acc with subDirReplaceMap := insertAssoc acc.subDirReplaceMap pvNameMetadata kv.2 }
      else acc)
    ⟨"", "", []⟩

/-- The secrets loop of NodeStageVolume: username, password and domain with
case-insensitive keys and whitespace trimming. -/
structure StageCreds where
  username : String
  password : String
  domain : String
deriving DecidableEq

/-- Parse the secrets map (lines 159-169). -/
def parseStageSecrets (secrets : List (String × String)) : StageCreds :=
  secrets.foldl
    (fun acc kv =>
      let lk := goToLower kv.1
      if lk = usernameField then { acc with username := goTrimSpace kv.2 }
      else if lk = passwordField then { acc with password := goTrimSpace kv.2 }
      else if lk = domainField then { acc with domain := goTrimSpace kv.2 }
      else acc)
    ⟨"", "", ""⟩

/-- Modelled from the spec: replaceWithMap substitutes every placeholder
token of the map into the string (strings.ReplaceAll per non-empty key);
defined outside the sources at hand. -/
def replaceWithMap (str : String) (m : List (String × String)) : String :=
  m.foldl
    (fun s kv =>
      if kv.1 ≠ "" then String.mk (goReplaceAll s.data kv.1.data kv.2.data) else s)
    str

/-- The effective mount source of a stage call (lines 219-225): with a
non-empty subDir, placeholder substitution is applied and the result is
appended to the slash-trimmed source. -/
def effectiveStageSource (ctx : StageCtx) : String :=
  if ctx.subDir ≠ "" then
    trimTrailingSlashes ctx.source ++ "/" ++ replaceWithMap ctx.subDir ctx.subDirReplaceMap
  else ctx.source

/-- The sensitive mount options of the non-Windows stage path (lines
194-196): the combined username/password option, only when credentials are
required and the Kerberos cache was not engaged. -/
def stageSensitiveMountOptions (requireUsernamePwdOption : Bool)
    (useKerberosCache : Bool) (creds : StageCreds) : List String :=
  if requireUsernamePwdOption ∧ useKerberosCache = false then
    [usernameField ++ "=" ++ creds.username ++ "," ++
     passwordField ++ "=" ++ creds.password]
  else []

/-- The mount options of the non-Windows stage path (lines 197-203): the
mount flags, a gid option when absent but requested, and the domain. -/
def stageMountOptions (mountFlags : List String) (gidPresent : Bool)
    (volumeMountGroup : String) (domain : String) : List String :=
  let o2 :=
    if gidPresent = false ∧ volumeMountGroup ≠ "" then
      mountFlags ++ ["gid=" ++ volumeMountGroup]
    else mountFlags
  if domain ≠ "" then o2 ++ [domainField ++ "=" ++ domain] else o2

/-- NodeStageVolume (non-Windows build).  The first component is the
response: an error, success, or no response at all (none) when the handler
blocks inside the poll; the second component lists the mount-primitive
invocations performed. -/
def nodeStageVolume (req : StageReq) (env : StageEnv) :
    Option (Except GoErr Unit) × List MountCall :=
  if req.volumeID = [] then
    (some (.error (.grpc .invalidArgument .volumeIDMissing)), [])
  else if req.hasVolumeCapability = false then
    (some (.error (.grpc .invalidArgument .capabilityMissing)), [])
  else if req.stagingTargetPath = "" then
    (some (.error (.grpc .invalidArgument .stagingTargetMissing)), [])
  else
    let gidPresent := checkGidPresentInMountFlags req.mountFlags
    let ctx := parseStageContext req.volumeContext
    if ctx.source = "" then
      (some (.error (.grpc .invalidArgument .sourceFieldMissing)), [])
    else if env.lockAcquired = false then
      (some (.error (.grpc .aborted (.operationAlreadyExists req.volumeID))), [])
    else
      let creds := parseStageSecrets req.secrets
      let requireUsernamePwdOption := ¬ hasGuestMountOptions req.mountFlags
      match ensureKerberosCache req.volumeID req.mountFlags req.secrets env.krbFS with
      | .error e =>
        (some (.error (.grpc .internal (.kerberosWriteFailed e))), [])
      | .ok (useKerberosCache, _) =>
        match env.mkdirR with
        | some m =>
          (some (.error (.grpc .internal (.mkdirFailed req.stagingTargetPath m))), [])
        | none =>
          let sensitiveMountOptions :=
            stageSensitiveMountOptions requireUsernamePwdOption useKerberosCache creds
          let mountOptions :=
            stageMountOptions req.mountFlags gidPresent req.volumeMountGroup creds.domain
          match env.ensureMountPointR with
          | (_, some m) =>
            (some (.error (.grpc .internal (.couldNotMountTarget req.stagingTargetPath m))), [])
          | (isDirMounted, none) =>
            if isDirMounted then (some (.ok ()), [])
            else
              match env.prepareStageR with
              | some m =>
                (some (.error (.plain (.prepareStageFailed req.stagingTargetPath m))), [])
              | none =>
                let source := effectiveStageSource ctx
                let call : MountCall :=
                  ⟨source, req.stagingTargetPath, "cifs", mountOptions, sensitiveMountOptions⟩
                match pollImmediateMount env.mountR with
                | none => (none, [call])
                | some (mountComplete, me) =>
                  if mountComplete = false then
                    (some (.error (.grpc .internal
                      (.mountTimeout req.volumeID source req.stagingTargetPath))), [call])
                  else
                    match me with
                    | some m =>
                      (some (.error (.grpc .internal
                        (.mountFailed req.volumeID source req.stagingTargetPath m))), [call])
                    | none => (some (.ok ()), [call])

/-! ## NodePublishVolume and the remaining node operations -/

/-- The fields of a NodePublishVolumeRequest consumed by the handler. -/
structure PublishReq where
  hasVolumeCapability : Bool
  volumeID : String
  targetPath : String
  stagingTargetPath : String
  readonly : Bool
deriving DecidableEq

/-- Outcomes of the external calls made by one NodePublishVolume
invocation. -/
structure PublishEnv where
  ensureMountPointR : Bool × Option String
  preparePublishR : Option String
  mountR : Option String
  removeR : Option String
deriving DecidableEq

/-- Trace of one NodePublishVolume invocation: bind-mount calls and
os.Remove calls on the target. -/
structure PublishTrace where
  mountCalls : List MountCall
  removeCalls : List String
deriving DecidableEq

/-- NodePublishVolume: validate, probe the target, bind-mount the staging
path onto it, removing the created target on bind-mount failure. -/
def nodePublishVolume (req : PublishReq) (env : PublishEnv) :
    Except GoErr Unit × PublishTrace :=
  if req.hasVolumeCapability = false then
    (.error (.grpc .invalidArgument .capabilityMissing), ⟨[], []⟩)
  else if req.volumeID = "" then
    (.error (.grpc .invalidArgument .volumeIDMissing), ⟨[], []⟩)
  else if req.targetPath = "" then
    (.error (.grpc .invalidArgument .targetPathMissing), ⟨[], []⟩)
  else if req.stagingTargetPath = "" then
    (.error (.grpc .invalidArgument .stagingTargetMissing), ⟨[], []⟩)
  else
    let mountOptions := if req.readonly then ["bind", "ro"] else ["bind"]
    match env.ensureMountPointR with
    | (_, some m) =>
      (.error (.grpc .internal (.couldNotMountTarget req.targetPath m)), ⟨[], []⟩)
    | (mnt, none) =>
      if mnt then (.ok (), ⟨[], []⟩)
      else
        match env.preparePublishR with
        | some m =>
          (.error (.plain (.preparePublishFailed req.targetPath m)), ⟨[], []⟩)
        | none =>
          let call : MountCall :=
            ⟨req.stagingTargetPath, req.targetPath, "", mountOptions, []⟩
          match env.mountR with
          | some m =>
            match env.removeR with
            | some rm =>
              (.error (.grpc .internal (.couldNotRemoveMountTarget req.targetPath rm)),
               ⟨[call], [req.targetPath]⟩)
            | none =>
              (.error (.grpc .internal
                 (.couldNotBindMount req.stagingTargetPath req.targetPath m)),
               ⟨[call], [req.targetPath]⟩)
          | none => (.ok (), ⟨[call], []⟩)

/-- NodeUnpublishVolume: validate and clean up the target path. -/
def nodeUnpublishVolume (volumeID targetPath : String) (cleanupR : Option String) :
    Except GoErr Unit :=
  if volumeID = "" then .error (.grpc .invalidArgument .volumeIDMissing)
  else if targetPath = "" then .error (.grpc .invalidArgument .targetPathMissingUnpublish)
  else
    match cleanupR with
    | some m => .error (.grpc .internal (.unmountTargetFailed targetPath m))
    | none => .ok ()

/-- NodeUnstageVolume: validate, lock, clean up the staging path, delete
the kerberos cache. -/
def nodeUnstageVolume (volumeID : List Nat) (stagingTargetPath : String)
    (lockAcquired : Bool) (cleanupR : Option String) (fs : KrbFS) :
    Except GoErr Unit × KrbFS :=
  if volumeID = [] then (.error (.grpc .invalidArgument .volumeIDMissing), fs)
  else if stagingTargetPath = "" then
    (.error (.grpc .invalidArgument .stagingTargetMissing), fs)
  else if lockAcquired = false then
    (.error (.grpc .aborted (.operationAlreadyExists volumeID)), fs)
  else
    match cleanupR with
    | some m => (.error (.grpc .internal (.unmountStagingFailed stagingTargetPath m)), fs)
    | none =>
      match deleteKerberosCache volumeID fs with
      | (.error e, fs2) => (.error (.grpc .internal (.deleteKerberosCacheFailed e)), fs2)
      | (.ok _, fs2) => (.ok (), fs2)

/-- The six AsInt64 conversions of NodeGetVolumeStats; none stands for a
conversion that reports not-ok. -/
structure VolumeMetrics where
  available : Option Int
  capacity : Option Int
  used : Option Int
  inodesFree : Option Int
  inodes : Option Int
  inodesUsed : Option Int
deriving DecidableEq

/-- NodeGetVolumeStats: validate, os.Lstat the path (not-found on absence),
fetch metrics and convert the six quantities. -/
def nodeGetVolumeStats (volumeID volumePath : String) (lstatR : StatOutcome)
    (metricsR : Except String VolumeMetrics) : Except GoErr Unit :=
  if volumeID = "" then .error (.grpc .invalidArgument .statsVolumeIDEmpty)
  else if volumePath = "" then .error (.grpc .invalidArgument .statsVolumePathEmpty)
  else
    match lstatR with
    | .notExist => .error (.grpc .notFound (.pathNotExist volumePath))
    | .otherError m => .error (.grpc .internal (.statFileFailed volumePath m))
    | .ok =>
      match metricsR with
      | .error m => .error (.grpc .internal (.getMetricsFailed m))
      | .ok vm =>
        match vm.available with
        | none => .error (.grpc .internal (.transformNotOk "available"))
        | some _ =>
        match vm.capacity with
        | none => .error (.grpc .internal (.transformNotOk "capacity"))
        | some _ =>
        match vm.used with
        | none => .error (.grpc .internal (.transformNotOk "used"))
        | some _ =>
        match vm.inodesFree with
        | none => .error (.grpc .internal (.transformNotOk "inodesFree"))
        | some _ =>
        match vm.inodes with
        | none => .error (.grpc .internal (.transformNotOk "inodes"))
        | some _ =>
        match vm.inodesUsed with
        | none => .error (.grpc .internal (.transformNotOk "inodesUsed"))
        | some _ => .ok ()

/-- NodeExpandVolume: always unimplemented. -/
def nodeExpandVolume : Except GoErr Unit :=
  .error (.grpc .unimplemented .expandUnimplemented)

/-! ## Claim theorems -/

/-- C9: volumeKerberosCacheName is injective: distinct VolumeIDs yield
distinct cache filenames (standard base64 followed by the slash-to-dash and
plus-to-underscore substitutions never collides), so deleteKerberosCache
for one volume can never name another volume's cache file. -/
theorem c9_volumeKerberosCacheName_injective (v1 v2 : List Nat)
    (h1 : ∀ b ∈ v1, b < 256) (h2 : ∀ b ∈ v2, b < 256)
    (h : volumeKerberosCacheName v1 = volumeKerberosCacheName v2) : v1 = v2 :=
  volumeKerberosCacheName_injective v1 v2 h1 h2 h

/-- Witness for C9 at a concrete byte list. -/
theorem c9_witness :
    (∀ b ∈ [(14 : Nat), 251], b < 256) ∧ [(14 : Nat), 251] = [14, 251] :=
  ⟨by decide, c9_volumeKerberosCacheName_injective [14, 251] [14, 251]
    (by decide) (by decide) rfl⟩

/-- C10: deleteKerberosCache returns success without scanning or removing
anything whenever the stat of the cache directory fails for any reason (not
only absence): the boolean of kerberosCacheDirectoryExists is tested before
its error, and that function returns false alongside every error, so the
error-return branch of deleteKerberosCache is unreachable. -/
theorem c10_deleteKerberosCache_stat_failure_noop :
    (∀ (vid : List Nat) (fs : KrbFS), fs.dirStat ≠ .ok →
       deleteKerberosCache vid fs = (.ok (), fs)) ∧
    (∀ o : StatOutcome, (kerberosCacheDirectoryExists o).1 = true →
       (kerberosCacheDirectoryExists o).2 = none) := by
  constructor
  · intro vid fs h
    cases hds : fs.dirStat with
    | ok => exact absurd hds h
    | notExist => simp [deleteKerberosCache, kerberosCacheDirectoryExists, hds]
    | otherError m => simp [deleteKerberosCache, kerberosCacheDirectoryExists, hds]
  · intro o h
    cases o <;> simp_all [kerberosCacheDirectoryExists]

/-- Witness for C10: a permission-style stat failure (not absence) still
yields a silent no-op success. -/
theorem c10_witness :
    ((⟨StatOutcome.otherError "permission denied", [("x", Entry.file [1])]⟩ : KrbFS).dirStat
        ≠ StatOutcome.ok) ∧
    deleteKerberosCache [7] ⟨StatOutcome.otherError "permission denied", [("x", Entry.file [1])]⟩ =
      (.ok (), ⟨StatOutcome.otherError "permission denied", [("x", Entry.file [1])]⟩) :=
  ⟨by decide, c10_deleteKerberosCache_stat_failure_noop.1 [7] _ (by decide)⟩

/-- Probe environment refuting C2 as stated: the path is a mount point, the
directory listing fails with a stale-handle error, and the recovery unmount
succeeds. -/
def c2Env : ProbeEnv :=
  { isLikelyNotMountPointR := (false, none)
    isCorruptedDir := false
    listR := .ok []
    absTargetR := .ok "/staging/target"
    readDirR := some "stale file handle"
    unmountR := none
    makeDirR := none }

/-- C2 counterexample: with the verdict mounted, a failing directory
listing and a successful recovery unmount, the prober flips the verdict to
not mounted but returns the directory-listing error to the caller, so an
error is surfaced even though the recovery unmount succeeded. -/
theorem c2_counterexample :
    ensureMountPoint c2Env = ((false, some "stale file handle"), true) ∧
    (ensureMountPoint c2Env).1.2 ≠ none :=
  ⟨rfl, by intro h; rw [show ensureMountPoint c2Env = ((false, some "stale file handle"), true) from rfl] at h; cases h⟩

/-- C2 amended: for every path whose probe verdict is mounted but whose
directory listing fails, the prober unmounts the path; when the recovery
unmount succeeds it returns the verdict not mounted together with the
directory-listing error (so the calling operation fails and a later retry
performs the remount), and when the recovery unmount fails it returns the
verdict mounted together with the unmount error. -/
theorem c2_amended (env : ProbeEnv) (notMnt : Bool) (mountList : List String)
    (targetAbs : String) (rdErr : String)
    (hlist : env.listR = .ok mountList)
    (habs : env.absTargetR = .ok targetAbs)
    (hverdict : (if mountList.contains targetAbs then false else notMnt) = false)
    (hrd : env.readDirR = some rdErr) :
    (ensureMountPointRest env notMnt).2 = true ∧
    (env.unmountR = none →
      ensureMountPointRest env notMnt = ((false, some rdErr), true)) ∧
    (∀ ue, env.unmountR = some ue →
      ensureMountPointRest env notMnt = ((true, some ue), true)) := by
  have key : ensureMountPointRest env notMnt =
      (match env.unmountR with
       | some ue => ((true, some ue), true)
       | none => ((false, some rdErr), true)) := by
    unfold ensureMountPointRest
    rw [hlist, habs]
    simp only [hverdict, hrd]
    simp
  rw [key]
  refine ⟨?_, ?_, ?_⟩
  · cases hu : env.unmountR <;> simp [hu]
  · intro hn
    rw [hn]
  · intro ue hue
    rw [hue]

/-- Witness for C2's amended theorem at a concrete environment. -/
theorem c2_amended_witness :
    (c2Env.listR = .ok []) ∧ (c2Env.absTargetR = .ok "/staging/target") ∧
    ((if List.contains [] "/staging/target" then false else false) = false) ∧
    (c2Env.readDirR = some "stale file handle") ∧
    ((ensureMountPointRest c2Env false).2 = true ∧
     (c2Env.unmountR = none →
       ensureMountPointRest c2Env false = ((false, some "stale file handle"), true)) ∧
     (∀ ue, c2Env.unmountR = some ue →
       ensureMountPointRest c2Env false = ((true, some ue), true))) :=
  ⟨rfl, rfl, rfl, rfl,
   c2_amended c2Env false [] "/staging/target" "stale file handle" rfl rfl rfl rfl⟩

/-- C5: if the bind-mount performed by publish fails, publish removes the
target directory it created and returns the mount error; if that removal
itself fails, the removal error is returned instead.  The remove-call trace
records the rollback, so a failed publish leaves no created target
directory behind on the removal success path. -/
theorem c5_publish_rollback (req : PublishReq) (env : PublishEnv) (m : String)
    (hcap : req.hasVolumeCapability = true)
    (hvid : req.volumeID ≠ "")
    (htgt : req.targetPath ≠ "")
    (hstg : req.stagingTargetPath ≠ "")
    (hprobe : env.ensureMountPointR = (false, none))
    (hprep : env.preparePublishR = none)
    (hmount : env.mountR = some m) :
    (nodePublishVolume req env).2.removeCalls = [req.targetPath] ∧
    (env.removeR = none →
      (nodePublishVolume req env).1 =
        .error (.grpc .internal
          (.couldNotBindMount req.stagingTargetPath req.targetPath m))) ∧
    (∀ rm, env.removeR = some rm →
      (nodePublishVolume req env).1 =
        .error (.grpc .internal (.couldNotRemoveMountTarget req.targetPath rm))) := by
  have key : nodePublishVolume req env =
      (match env.removeR with
       | some rm =>
         (.error (.grpc .internal (.couldNotRemoveMountTarget req.targetPath rm)),
          ⟨[⟨req.stagingTargetPath, req.targetPath, "",
             (if req.readonly then ["bind", "ro"] else ["bind"]), []⟩], [req.targetPath]⟩)
       | none =>
         (.error (.grpc .internal
            (.couldNotBindMount req.stagingTargetPath req.targetPath m)),
          ⟨[⟨req.stagingTargetPath, req.targetPath, "",
             (if req.readonly then ["bind", "ro"] else ["bind"]), []⟩], [req.targetPath]⟩)) := by
    unfold nodePublishVolume
    rw [if_neg (by simp [hcap]), if_neg (by simp [hvid]), if_neg (by simp [htgt]),
        if_neg (by simp [hstg]), hprobe]
    simp only [hprep, hmount]
    simp
  rw [key]
  refine ⟨?_, ?_, ?_⟩
  · cases hr : env.removeR <;> simp [hr]
  · intro hr
    rw [hr]
  · intro rm hr
    rw [hr]

/-- Concrete environment for the publish-rollback witness. -/
def c5Env : PublishEnv :=
  { ensureMountPointR := (false, none)
    preparePublishR := none
    mountR := some "mount failed"
    removeR := none }

/-- Concrete request for the publish-rollback witness. -/
def c5Req : PublishReq :=
  { hasVolumeCapability := true
    volumeID := "v1"
    targetPath := "/pods/target"
    stagingTargetPath := "/staging"
    readonly := false }

/-- Witness for C5 at a concrete failed bind-mount. -/
theorem c5_witness :
    (c5Req.hasVolumeCapability = true) ∧ (c5Req.volumeID ≠ "") ∧
    (c5Req.targetPath ≠ "") ∧ (c5Req.stagingTargetPath ≠ "") ∧
    (c5Env.ensureMountPointR = (false, none)) ∧ (c5Env.preparePublishR = none) ∧
    (c5Env.mountR = some "mount failed") ∧
    ((nodePublishVolume c5Req c5Env).2.removeCalls = [c5Req.targetPath] ∧
      (nodePublishVolume c5Req c5Env).1 =
        .error (.grpc .internal
          (.couldNotBindMount c5Req.stagingTargetPath c5Req.targetPath "mount failed"))) :=
  ⟨rfl, by decide, by decide, by decide, rfl, rfl, rfl,
   (c5_publish_rollback c5Req c5Env "mount failed" rfl (by decide) (by decide)
      (by decide) rfl rfl rfl).1,
   (c5_publish_rollback c5Req c5Env "mount failed" rfl (by decide) (by decide)
      (by decide) rfl rfl rfl).2.1 rfl⟩

/-- C1: stage and publish are idempotent: whenever the probe reports the
target already validly mounted, the operation returns success without
invoking the mount primitive (the mount-call trace is empty), so a second
call with identical arguments against an already-valid mount performs no
mount and succeeds, as does the first. -/
theorem c1_stage_publish_idempotent :
    (∀ (req : StageReq) (env : StageEnv) (b : Bool) (fs2 : KrbFS),
       req.volumeID ≠ [] → req.hasVolumeCapability = true →
       req.stagingTargetPath ≠ "" →
       (parseStageContext req.volumeContext).source ≠ "" →
       env.lockAcquired = true →
       ensureKerberosCache req.volumeID req.mountFlags req.secrets env.krbFS =
         .ok (b, fs2) →
       env.mkdirR = none →
       env.ensureMountPointR = (true, none) →
       nodeStageVolume req env = (some (.ok ()), [])) ∧
    (∀ (req : PublishReq) (env : PublishEnv),
       req.hasVolumeCapability = true → req.volumeID ≠ "" →
       req.targetPath ≠ "" → req.stagingTargetPath ≠ "" →
       env.ensureMountPointR = (true, none) →
       nodePublishVolume req env = (.ok (), ⟨[], []⟩)) := by
  constructor
  · intro req env b fs2 hvid hcap hpath hsrc hlock hkerb hmk hprobe
    unfold nodeStageVolume
    rw [if_neg (by simp [hvid]), if_neg (by simp [hcap]), if_neg (by simp [hpath])]
    rw [if_neg (by simp [hsrc]), if_neg (by simp [hlock])]
    rw [hkerb]
    simp only [hmk, hprobe]
    simp
  · intro req env hcap hvid htgt hstg hprobe
    unfold nodePublishVolume
    rw [if_neg (by simp [hcap]), if_neg (by simp [hvid]), if_neg (by simp [htgt]),
        if_neg (by simp [hstg]), hprobe]
    simp

/-- Concrete stage request for the C1 witness. -/
def c1Req : StageReq :=
  { volumeID := [118, 49]
    hasVolumeCapability := true
    stagingTargetPath := "/staging"
    volumeContext := [("source", "//server/share")]
    mountFlags := []
    volumeMountGroup := ""
    secrets := [] }

/-- Concrete stage environment for the C1 witness: the probe reports the
target already mounted. -/
def c1Env : StageEnv :=
  { lockAcquired := true
    krbFS := ⟨.ok, []⟩
    mkdirR := none
    ensureMountPointR := (true, none)
    prepareStageR := none
    mountR := .completes none }

/-- Witness for C1: both operations succeed without any mount invocation at
a concrete already-mounted target. -/
theorem c1_witness :
    (c1Req.volumeID ≠ [] ∧ c1Req.hasVolumeCapability = true ∧
     c1Req.stagingTargetPath ≠ "" ∧
     (parseStageContext c1Req.volumeContext).source ≠ "" ∧
     c1Env.lockAcquired = true ∧
     ensureKerberosCache c1Req.volumeID c1Req.mountFlags c1Req.secrets c1Env.krbFS =
       .ok (false, ⟨.ok, []⟩) ∧
     c1Env.mkdirR = none ∧ c1Env.ensureMountPointR = (true, none)) ∧
    nodeStageVolume c1Req c1Env = (some (.ok ()), []) ∧
    nodePublishVolume c5Req { c5Env with ensureMountPointR := (true, none) } =
      (.ok (), ⟨[], []⟩) :=
  ⟨⟨by decide, rfl, by decide, by decide, rfl, rfl, rfl, rfl⟩,
   c1_stage_publish_idempotent.1 c1Req c1Env false ⟨.ok, []⟩ (by decide) rfl
     (by decide) (by decide) rfl rfl rfl rfl,
   c1_stage_publish_idempotent.2 c5Req _ rfl (by decide) (by decide) (by decide) rfl⟩

set_option maxHeartbeats 1000000 in
/-- C8: for every stage request with a non-empty subDir, every mount
invocation performed by the stage call uses the effective source obtained
by trimming trailing slashes from the source, appending a slash, and
appending the subDir with placeholder tokens substituted. -/
theorem c8_stage_substituted_source (req : StageReq) (env : StageEnv)
    (hsub : (parseStageContext req.volumeContext).subDir ≠ "") :
    ∀ c ∈ (nodeStageVolume req env).2,
      c.source =
        trimTrailingSlashes (parseStageContext req.volumeContext).source ++ "/" ++
          replaceWithMap (parseStageContext req.volumeContext).subDir
            (parseStageContext req.volumeContext).subDirReplaceMap := by
  intro c hc
  unfold nodeStageVolume at hc
  iterate 16 (all_goals ((try simp only [] at hc); (try split at hc)))
  all_goals
    first
    | simp only [List.not_mem_nil] at hc
    | (simp only [List.mem_singleton] at hc
       subst hc
       simp [effectiveStageSource, hsub])

/-- Concrete stage request for the C8 witness: the spec's example with
subDir using both PVC placeholders, namespace ns1 and name claim1, and a
source with a trailing slash. -/
def c8Req : StageReq :=
  { volumeID := [118, 49]
    hasVolumeCapability := true
    stagingTargetPath := "/staging"
    volumeContext :=
      [("source", "//server/share/"),
       ("subdir", "$\x7bpvc.metadata.namespace\x7d/$\x7bpvc.metadata.name\x7d"),
       ("csi.storage.k8s.io/pvc/namespace", "ns1"),
       ("csi.storage.k8s.io/pvc/name", "claim1")]
    mountFlags := []
    volumeMountGroup := ""
    secrets := [] }

/-- Witness for C8: at the spec's example the single mount call uses
//server/share/ns1/claim1. -/
theorem c8_witness :
    ((parseStageContext c8Req.volumeContext).subDir ≠ "") ∧
    (∀ c ∈ (nodeStageVolume c8Req c1Env).2,
      c.source =
        trimTrailingSlashes (parseStageContext c8Req.volumeContext).source ++ "/" ++
          replaceWithMap (parseStageContext c8Req.volumeContext).subDir
            (parseStageContext c8Req.volumeContext).subDirReplaceMap) ∧
    (nodeStageVolume c8Req
        { c1Env with ensureMountPointR := (false, none) }).2.map MountCall.source =
      ["//server/share/ns1/claim1"] :=
  ⟨by decide, c8_stage_substituted_source c8Req c1Env (by decide), by decide⟩

/-- Stage request refuting C7: mount flags indicate no guest mode, and the
secrets carry no username or password at all. -/
def c7Req : StageReq :=
  { volumeID := [118, 49]
    hasVolumeCapability := true
    stagingTargetPath := "/staging"
    volumeContext := [("source", "//server/share")]
    mountFlags := []
    volumeMountGroup := ""
    secrets := [] }

/-- Stage environment refuting C7: not yet mounted, every primitive
succeeds. -/
def c7Env : StageEnv :=
  { lockAcquired := true
    krbFS := ⟨.ok, []⟩
    mkdirR := none
    ensureMountPointR := (false, none)
    prepareStageR := none
    mountR := .completes none }

/-- C7 counterexample: a non-guest stage request with missing credentials
does not fail with an input error; it succeeds and invokes the mount
primitive, passing the empty username and password in the sensitive mount
option. -/
theorem c7_counterexample :
    hasGuestMountOptions c7Req.mountFlags = false ∧
    nodeStageVolume c7Req c7Env =
      (some (.ok ()), [⟨"//server/share", "/staging", "cifs", [],
                       ["username=,password="]⟩]) :=
  ⟨rfl, rfl⟩

/-- C7 amended: for every stage request whose mount flags indicate neither
guest mode nor an engaged Kerberos cache, credentials are not validated:
staging proceeds to invoke the mount primitive exactly once, passing the
(possibly empty) trimmed username and password secrets in the sensitive
mount option, and does not return an invalid-argument error for them. -/
theorem c7_amended (req : StageReq) (env : StageEnv) (fs2 : KrbFS)
    (me : Option String)
    (hvid : req.volumeID ≠ []) (hcap : req.hasVolumeCapability = true)
    (hpath : req.stagingTargetPath ≠ "")
    (hsrc : (parseStageContext req.volumeContext).source ≠ "")
    (hlock : env.lockAcquired = true)
    (hkerb : ensureKerberosCache req.volumeID req.mountFlags req.secrets env.krbFS =
       .ok (false, fs2))
    (hmk : env.mkdirR = none)
    (hprobe : env.ensureMountPointR = (false, none))
    (hprep : env.prepareStageR = none)
    (hmount : env.mountR = .completes me)
    (hguest : hasGuestMountOptions req.mountFlags = false) :
    (∃ opts, (nodeStageVolume req env).2 =
      [⟨effectiveStageSource (parseStageContext req.volumeContext),
        req.stagingTargetPath, "cifs", opts,
        [usernameField ++ "=" ++ (parseStageSecrets req.secrets).username ++ "," ++
         passwordField ++ "=" ++ (parseStageSecrets req.secrets).password]⟩]) ∧
    (∀ s, (nodeStageVolume req env).1 ≠ some (.error (.grpc .invalidArgument s))) := by
  have key : nodeStageVolume req env =
      ((match me with
        | some m =>
          some (.error (.grpc .internal
            (.mountFailed req.volumeID
              (effectiveStageSource (parseStageContext req.volumeContext))
              req.stagingTargetPath m)))
        | none => some (.ok ())),
       [⟨effectiveStageSource (parseStageContext req.volumeContext),
         req.stagingTargetPath, "cifs",
         stageMountOptions req.mountFlags (checkGidPresentInMountFlags req.mountFlags)
           req.volumeMountGroup (parseStageSecrets req.secrets).domain,
         [usernameField ++ "=" ++ (parseStageSecrets req.secrets).username ++ "," ++
          passwordField ++ "=" ++ (parseStageSecrets req.secrets).password]⟩]) := by
    unfold nodeStageVolume
    rw [if_neg (by simp [hvid]), if_neg (by simp [hcap]), if_neg (by simp [hpath])]
    rw [if_neg (by simp [hsrc]), if_neg (by simp [hlock])]
    rw [hkerb]
    simp only [hmk, hprobe, hprep, hmount, hguest, pollImmediateMount]
    simp [stageSensitiveMountOptions, hguest]
    cases me <;> rfl
  rw [key]
  constructor
  · exact ⟨_, rfl⟩
  · intro s
    cases me <;> simp

/-- Witness for C7's amended theorem: the concrete refuting request. -/
theorem c7_amended_witness :
    (c7Req.volumeID ≠ [] ∧ c7Req.hasVolumeCapability = true ∧
     c7Req.stagingTargetPath ≠ "" ∧
     (parseStageContext c7Req.volumeContext).source ≠ "" ∧
     c7Env.lockAcquired = true ∧
     ensureKerberosCache c7Req.volumeID c7Req.mountFlags c7Req.secrets c7Env.krbFS =
       .ok (false, ⟨.ok, []⟩) ∧
     c7Env.mkdirR = none ∧ c7Env.ensureMountPointR = (false, none) ∧
     c7Env.prepareStageR = none ∧ c7Env.mountR = .completes none ∧
     hasGuestMountOptions c7Req.mountFlags = false) ∧
    ((∃ opts, (nodeStageVolume c7Req c7Env).2 =
       [⟨effectiveStageSource (parseStageContext c7Req.volumeContext),
         c7Req.stagingTargetPath, "cifs", opts,
         [usernameField ++ "=" ++ (parseStageSecrets c7Req.secrets).username ++ "," ++
          passwordField ++ "=" ++ (parseStageSecrets c7Req.secrets).password]⟩]) ∧
     (∀ s, (nodeStageVolume c7Req c7Env).1 ≠ some (.error (.grpc .invalidArgument s)))) :=
  ⟨⟨by decide, rfl, by decide, by decide, rfl, rfl, rfl, rfl, rfl, rfl, rfl⟩,
   c7_amended c7Req c7Env ⟨.ok, []⟩ none (by decide) rfl (by decide) (by decide)
     rfl rfl rfl rfl rfl rfl rfl⟩

/-- Whether a stage outcome is the timeout-specific error of the poll
bound. -/
def stageHasTimeoutError (r : Option (Except GoErr Unit) × List MountCall) : Bool :=
  match r.1 with
  | some (.error (.grpc _ (.mountTimeout _ _ _))) => true
  | _ => false

/-- Stage environment in which the mount primitive never returns. -/
def c4EnvHang : StageEnv :=
  { lockAcquired := true
    krbFS := ⟨.ok, []⟩
    mkdirR := none
    ensureMountPointR := (false, none)
    prepareStageR := none
    mountR := .hangs }

/-- The poll always reports completion when it returns at all. -/
lemma pollImmediateMount_complete (b : MountBehavior) (mc : Bool)
    (me : Option String) (h : pollImmediateMount b = some (mc, me)) : mc = true := by
  cases b with
  | hangs => cases h
  | completes e =>
    simp [pollImmediateMount] at h
    exact h.1

/-- C4: the mount runs under the 1-second, 2-minute PollImmediate with the
first completed attempt terminal; however, the timeout-specific error is
unreachable: the poll callback always reports completion, so no execution
of the handler ever returns the timeout error, and when the mount primitive
never returns the handler produces no response at all instead of the
claimed timeout report after the bound. -/
theorem c4_stage_timeout_unreachable :
    nodeStageVolume c7Req c4EnvHang =
      (none, [⟨"//server/share", "/staging", "cifs", [], ["username=,password="]⟩]) ∧
    (∀ (req : StageReq) (env : StageEnv),
       stageHasTimeoutError (nodeStageVolume req env) = false) ∧
    (∀ e, pollImmediateMount (.completes e) = some (true, e)) ∧
    stagePollIntervalSeconds = 1 ∧ stagePollTimeoutSeconds = 120 := by
  refine ⟨rfl, ?_, fun e => rfl, rfl, rfl⟩
  intro req env
  unfold nodeStageVolume
  iterate 16 (all_goals ((try simp only []); (try split)))
  all_goals
    first
    | (simp [stageHasTimeoutError]; done)
    | (exfalso
       rename_i heq hmc
       have := pollImmediateMount_complete _ _ _ heq
       simp [this] at hmc)

/-! ## Error-code taxonomy (C6) -/

/-- The failure kinds named by the error-code taxonomy. -/
inductive FailKind where
  | missingField
  | contention
  | ioMountCache
  | statsMissingPath
  | unsupported
deriving DecidableEq

/-- The gRPC code the taxonomy dictates for each failure kind. -/
def taxonomyCode : FailKind → Code
  | .missingField => .invalidArgument
  | .contention => .aborted
  | .ioMountCache => .internal
  | .statsMissingPath => .notFound
  | .unsupported => .unimplemented

/-- The failure kind of each error site: missing required fields, lock
contention, input-output, mount or cache failures, the stats request
against a nonexistent path, and unsupported volume expansion. -/
def siteKind : ErrSite → FailKind
  | .volumeIDMissing => .missingField
  | .capabilityMissing => .missingField
  | .stagingTargetMissing => .missingField
  | .targetPathMissing => .missingField
  | .targetPathMissingUnpublish => .missingField
  | .sourceFieldMissing => .missingField
  | .operationAlreadyExists _ => .contention
  | .kerberosWriteFailed _ => .ioMountCache
  | .mkdirFailed _ _ => .ioMountCache
  | .couldNotMountTarget _ _ => .ioMountCache
  | .prepareStageFailed _ _ => .ioMountCache
  | .preparePublishFailed _ _ => .ioMountCache
  | .mountTimeout _ _ _ => .ioMountCache
  | .mountFailed _ _ _ _ => .ioMountCache
  | .couldNotRemoveMountTarget _ _ => .ioMountCache
  | .couldNotBindMount _ _ _ => .ioMountCache
  | .unmountTargetFailed _ _ => .ioMountCache
  | .unmountStagingFailed _ _ => .ioMountCache
  | .deleteKerberosCacheFailed _ => .ioMountCache
  | .statsVolumeIDEmpty => .missingField
  | .statsVolumePathEmpty => .missingField
  | .pathNotExist _ => .statsMissingPath
  | .statFileFailed _ _ => .ioMountCache
  | .getMetricsFailed _ => .ioMountCache
  | .transformNotOk _ => .ioMountCache
  | .expandUnimplemented => .unsupported

/-- A failure response obeys the taxonomy as amended: a status error must
carry the code the taxonomy dictates for its kind, and the only errors
returned without any status code are the prepare-stage-path and
prepare-publish-path failures. -/
def claimCodeOKb (e : GoErr) : Bool :=
  match e with
  | .grpc c s => c = taxonomyCode (siteKind s)
  | .plain s =>
    match s with
    | .prepareStageFailed _ _ => true
    | .preparePublishFailed _ _ => true
    | _ => false

/-- Publish environment refuting C6 as stated: preparing the publish path
fails, an input-output failure of publish. -/
def c6Env : PublishEnv :=
  { ensureMountPointR := (false, none)
    preparePublishR := some "permission denied"
    mountR := none
    removeR := none }

/-- C6 counterexample: the prepare-publish-path failure, an input-output
failure path of publish, is returned as a plain error without a status
code, observed by gRPC callers as the unknown code, not internal. -/
theorem c6_counterexample :
    nodePublishVolume c5Req c6Env =
      (.error (.plain (.preparePublishFailed "/pods/target" "permission denied")),
       ⟨[], []⟩) ∧
    grpcCodeOf (.plain (.preparePublishFailed "/pods/target" "permission denied")) ≠
      Code.internal ∧
    siteKind (.preparePublishFailed "/pods/target" "permission denied") =
      FailKind.ioMountCache :=
  ⟨rfl, by decide, rfl⟩

/-- A handler result obeys the amended taxonomy. -/
def exceptCodesOK (r : Except GoErr Unit) : Bool :=
  match r with
  | .error ge => claimCodeOKb ge
  | .ok _ => true

/-- A stage result obeys the amended taxonomy (no response counts as no
failure response). -/
def stageResultCodesOK (r : Option (Except GoErr Unit) × List MountCall) : Bool :=
  match r.1 with
  | some e => exceptCodesOK e
  | none => true

set_option maxHeartbeats 1000000 in
/-- C6 amended: every failure response of the node operations carries the
code dictated by the taxonomy - invalid-argument for missing required
fields, aborted for lock contention, internal for input-output, mount or
cache failures, not-found for a stats request against a nonexistent path,
unimplemented for volume expansion - except that the prepare-stage-path and
prepare-publish-path failures are returned as plain errors without a status
code (observed as unknown). -/
theorem c6_amended_failure_codes :
    (∀ (req : StageReq) (env : StageEnv),
       stageResultCodesOK (nodeStageVolume req env) = true) ∧
    (∀ (req : PublishReq) (env : PublishEnv),
       exceptCodesOK (nodePublishVolume req env).1 = true) ∧
    (∀ (vid target : String) (cleanupR : Option String),
       exceptCodesOK (nodeUnpublishVolume vid target cleanupR) = true) ∧
    (∀ (vid : List Nat) (path : String) (lock : Bool) (cleanupR : Option String)
       (fs : KrbFS),
       exceptCodesOK (nodeUnstageVolume vid path lock cleanupR fs).1 = true) ∧
    (∀ (vid path : String) (lstatR : StatOutcome)
       (metricsR : Except String VolumeMetrics),
       exceptCodesOK (nodeGetVolumeStats vid path lstatR metricsR) = true) ∧
    (∀ (vid path : String) (metricsR : Except String VolumeMetrics),
       vid ≠ "" → path ≠ "" →
       nodeGetVolumeStats vid path .notExist metricsR =
         .error (.grpc .notFound (.pathNotExist path))) ∧
    nodeExpandVolume = .error (.grpc .unimplemented .expandUnimplemented) := by
  refine ⟨?_, ?_, ?_, ?_, ?_, ?_, rfl⟩
  · intro req env
    unfold nodeStageVolume
    iterate 16 (all_goals ((try simp only []); (try split)))
    all_goals
      simp [stageResultCodesOK, exceptCodesOK, claimCodeOKb, siteKind, taxonomyCode]
  · intro req env
    unfold nodePublishVolume
    iterate 12 (all_goals ((try simp only []); (try split)))
    all_goals
      simp [stageResultCodesOK, exceptCodesOK, claimCodeOKb, siteKind, taxonomyCode]
  · intro vid target cleanupR
    unfold nodeUnpublishVolume
    iterate 6 (all_goals ((try simp only []); (try split)))
    all_goals
      simp [stageResultCodesOK, exceptCodesOK, claimCodeOKb, siteKind, taxonomyCode]
  · intro vid path lock cleanupR fs
    unfold nodeUnstageVolume
    iterate 8 (all_goals ((try simp only []); (try split)))
    all_goals
      simp [stageResultCodesOK, exceptCodesOK, claimCodeOKb, siteKind, taxonomyCode]
  · intro vid path lstatR metricsR
    unfold nodeGetVolumeStats
    iterate 12 (all_goals ((try simp only []); (try split)))
    all_goals
      simp [stageResultCodesOK, exceptCodesOK, claimCodeOKb, siteKind, taxonomyCode]
  · intro vid path metricsR hvid hpath
    unfold nodeGetVolumeStats
    rw [if_neg (by simp [hvid]), if_neg (by simp [hpath])]

/-- Witness for C6's amended theorem: the aborted code on lock contention
at a concrete request, and the not-found code for a stats request against a
nonexistent path. -/
theorem c6_witness :
    (nodeStageVolume c7Req { c7Env with lockAcquired := false } =
       (some (.error (.grpc .aborted (.operationAlreadyExists [118, 49]))), []) ∧
     stageResultCodesOK
       (nodeStageVolume c7Req { c7Env with lockAcquired := false }) = true) ∧
    ("v1" ≠ "" ∧ "/path" ≠ "" ∧
     nodeGetVolumeStats "v1" "/path" .notExist
         (.ok ⟨none, none, none, none, none, none⟩) =
       .error (.grpc .notFound (.pathNotExist "/path"))) :=
  ⟨⟨rfl, c6_amended_failure_codes.1 c7Req { c7Env with lockAcquired := false }⟩,
   by decide, by decide,
   c6_amended_failure_codes.2.2.2.2.2.1 "v1" "/path"
     (.ok ⟨none, none, none, none, none, none⟩) (by decide) (by decide)⟩

/-! ## Directory-model lemmas for the credential-cache round trip -/

lemma fsLookup_cons_self (d : List (String × Entry)) (n : String) (e : Entry) :
    fsLookup ((n, e) :: d) n = some e := by
  simp [fsLookup, List.find?]

lemma fsLookup_cons_of_ne (d : List (String × Entry)) {m n : String} (e : Entry)
    (h : m ≠ n) : fsLookup ((m, e) :: d) n = fsLookup d n := by
  simp [fsLookup, List.find?, h]

lemma fsLookup_fsRemove_self (d : List (String × Entry)) (n : String) :
    fsLookup (fsRemove d n) n = none := by
  induction d with
  | nil => rfl
  | cons a t ih =>
    by_cases ha : a.1 = n
    · simpa [fsRemove, ha] using ih
    · simpa [fsRemove, fsLookup, List.find?, ha] using ih

lemma fsLookup_fsRemove_of_ne (d : List (String × Entry)) {m n : String}
    (h : n ≠ m) : fsLookup (fsRemove d m) n = fsLookup d n := by
  induction d with
  | nil => rfl
  | cons a t ih =>
    by_cases ha : a.1 = m
    · rw [show fsRemove (a :: t) m = fsRemove t m by simp [fsRemove, ha]]
      rw [ih]
      have : a.1 ≠ n := by rw [ha]; exact fun hc => h hc.symm
      cases a with
      | mk a1 a2 => exact (fsLookup_cons_of_ne t a2 this).symm
    · cases a with
      | mk a1 a2 =>
        by_cases hn : a1 = n
        · subst hn
          rw [show fsRemove ((a1, a2) :: t) m = (a1, a2) :: fsRemove t m by
                simp [fsRemove, ha]]
          rw [fsLookup_cons_self, fsLookup_cons_self]
        · rw [show fsRemove ((a1, a2) :: t) m = (a1, a2) :: fsRemove t m by
                simp [fsRemove, ha]]
          rw [fsLookup_cons_of_ne _ _ hn, fsLookup_cons_of_ne _ _ hn, ih]

lemma mem_fsRemove_iff {d : List (String × Entry)} {n : String}
    {e : String × Entry} : e ∈ fsRemove d n ↔ e ∈ d ∧ e.1 ≠ n := by
  simp [fsRemove, List.mem_filter]

/-- Inversion of a successful Kerberos-engaged ensureKerberosCache call:
the directory stat succeeded, a credential UID was parsed, and the
resulting directory state is the written volume file, canonical-symlink
removal and fresh canonical symlink. -/
lemma ensureKerberosCache_ok_true_inv (vid : List Nat) (flags : List String)
    (secrets : List (String × String)) (fs fs' : KrbFS)
    (h : ensureKerberosCache vid flags secrets fs = .ok (true, fs')) :
    fs.dirStat = .ok ∧
    ∃ credUID content,
      getCredUID flags = .ok credUID ∧
      fs'.dirStat = fs.dirStat ∧
      fs'.entries =
        (getKrb5CcacheName credUID,
         Entry.symlink (getKerberosFilePath (volumeKerberosCacheName vid))) ::
          fsRemove (fsWrite fs.entries (volumeKerberosCacheName vid) content)
            (getKrb5CcacheName credUID) := by
  have hds : fs.dirStat = .ok := by
    cases hd : fs.dirStat with
    | ok => rfl
    | notExist =>
      unfold ensureKerberosCache at h
      rw [hd] at h
      split at h
      · simp [kerberosCacheDirectoryExists] at h
      · simp at h
    | otherError m =>
      unfold ensureKerberosCache at h
      rw [hd] at h
      split at h
      · simp [kerberosCacheDirectoryExists] at h
      · simp at h
  refine ⟨hds, ?_⟩
  unfold ensureKerberosCache at h
  rw [hds] at h
  split at h
  · simp only [kerberosCacheDirectoryExists] at h
    cases hcred : getCredUID flags with
    | error e =>
      rw [hcred] at h
      simp at h
    | ok credUID =>
      rw [hcred] at h
      simp only [] at h
      cases hcache : getKerberosCache credUID secrets with
      | error e2 =>
        rw [hcache] at h
        simp at h
      | ok pr =>
        obtain ⟨s, content⟩ := pr
        rw [hcache] at h
        simp only [] at h
        simp only [Except.ok.injEq, Prod.mk.injEq, true_and] at h
        refine ⟨credUID, content, rfl, ?_, ?_⟩
        · rw [← h]
          exact hds.symm
        · rw [← h]
  · simp at h

/-- Evaluation of deleteKerberosCache when the directory stat succeeds and
the volume-named file exists: symlinks to the volume file are filtered out
and the volume file is removed. -/
lemma deleteKerberosCache_run (vid : List Nat) (fs : KrbFS) (e : Entry)
    (hds : fs.dirStat = .ok)
    (hlk : fsLookup fs.entries (volumeKerberosCacheName vid) = some e) :
    deleteKerberosCache vid fs =
      (.ok (), { fs with entries :=
        (fsRemove
          (fs.entries.filter (fun en =>
            ¬ entryIsSymlinkTo en.2 (getKerberosFilePath (volumeKerberosCacheName vid))))
          (volumeKerberosCacheName vid)) }) := by
  unfold deleteKerberosCache
  rw [hds]
  simp [kerberosCacheDirectoryExists, hlk]

/-- Keep a non-symlink entry through the cleanup filter. -/
lemma mem_symlink_filter_of_file {d : List (String × Entry)} {n : String}
    {c : List Nat} {p : String} :
    (n, Entry.file c) ∈ d.filter (fun en => ¬ entryIsSymlinkTo en.2 p) ↔
    (n, Entry.file c) ∈ d := by
  constructor
  · intro h
    exact (List.mem_filter.mp h).1
  · intro h
    exact List.mem_filter.mpr ⟨h, by simp [entryIsSymlinkTo]⟩

/-- C3 amended: ensureKerberosCache followed by deleteKerberosCache for the
same volumeID succeeds and leaves the cache directory free of any symlink
whose target is that volume's cache file and free of the cache file itself;
cache files of other volumes are untouched provided their filename is not
the canonical cache name krb5cc_(credUID) engaged by the stage call (a
volume whose derived filename equals that canonical name has its cache file
replaced by the canonical symlink during ensureKerberosCache). -/
theorem c3_credential_cache_round_trip (vid : List Nat) (flags : List String)
    (secrets : List (String × String)) (fs fs' : KrbFS) (uid : Int)
    (hv : ∀ b ∈ vid, b < 256)
    (h : ensureKerberosCache vid flags secrets fs = .ok (true, fs'))
    (huid : getCredUID flags = .ok uid) :
    (deleteKerberosCache vid fs').1 = .ok () ∧
    (∀ n t, (n, Entry.symlink t) ∈ (deleteKerberosCache vid fs').2.entries →
      t ≠ getKerberosFilePath (volumeKerberosCacheName vid)) ∧
    fsLookup (deleteKerberosCache vid fs').2.entries (volumeKerberosCacheName vid) =
      none ∧
    (∀ (vid2 c : List Nat), vid2 ≠ vid → (∀ b ∈ vid2, b < 256) →
      volumeKerberosCacheName vid2 ≠ getKrb5CcacheName uid →
      ((volumeKerberosCacheName vid2, Entry.file c) ∈ fs.entries ↔
       (volumeKerberosCacheName vid2, Entry.file c) ∈
         (deleteKerberosCache vid fs').2.entries)) := by
  obtain ⟨hds, credUID, content, hcred, hds', hent⟩ :=
    ensureKerberosCache_ok_true_inv vid flags secrets fs fs' h
  have hcu : credUID = uid := by
    rw [hcred] at huid
    cases huid
    rfl
  subst hcu
  have hlk : ∃ e, fsLookup fs'.entries (volumeKerberosCacheName vid) = some e := by
    rw [hent]
    by_cases hccn : getKrb5CcacheName credUID = volumeKerberosCacheName vid
    · exact ⟨_, by rw [hccn]; exact fsLookup_cons_self _ _ _⟩
    · refine ⟨Entry.file content, ?_⟩
      rw [fsLookup_cons_of_ne _ _ hccn,
          fsLookup_fsRemove_of_ne _ (fun hc => hccn hc.symm)]
      simp only [fsWrite]
      exact fsLookup_cons_self _ _ _
  obtain ⟨e0, hlk⟩ := hlk
  have hds2 : fs'.dirStat = .ok := by rw [hds', hds]
  have hrun := deleteKerberosCache_run vid fs' e0 hds2 hlk
  rw [hrun]
  refine ⟨rfl, ?_, ?_, ?_⟩
  · intro n t hmem
    simp only at hmem
    have h1 := mem_fsRemove_iff.mp hmem
    have h2 := List.mem_filter.mp h1.1
    intro hct
    rw [hct] at h2
    simp [entryIsSymlinkTo] at h2
  · exact fsLookup_fsRemove_self _ _
  · intro vid2 c hne hv2 hcc2
    have hn2 : volumeKerberosCacheName vid2 ≠ volumeKerberosCacheName vid :=
      fun hc => hne (volumeKerberosCacheName_injective _ _ hv2 hv hc)
    constructor
    · intro hin
      have hin' : (volumeKerberosCacheName vid2, Entry.file c) ∈ fs'.entries := by
        rw [hent]
        refine List.mem_cons_of_mem _ ?_
        refine mem_fsRemove_iff.mpr ⟨?_, hcc2⟩
        simp only [fsWrite]
        refine List.mem_cons_of_mem _ ?_
        exact mem_fsRemove_iff.mpr ⟨hin, hn2⟩
      simp only
      exact mem_fsRemove_iff.mpr ⟨mem_symlink_filter_of_file.mpr hin', hn2⟩
    · intro hin
      simp only at hin
      have h1 := mem_fsRemove_iff.mp hin
      have h2 := mem_symlink_filter_of_file.mp h1.1
      rw [hent] at h2
      rcases List.mem_cons.mp h2 with hh | hh
      · simp [Prod.ext_iff] at hh
      · have h3 := mem_fsRemove_iff.mp hh
        have h4 := h3.1
        simp only [fsWrite] at h4
        rcases List.mem_cons.mp h4 with hh2 | hh2
        · rw [Prod.mk.injEq] at hh2
          exact absurd hh2.1 hn2
        · exact (mem_fsRemove_iff.mp hh2).1

/-- VolumeID of the volume being staged in the C3 counterexample. -/
def c3vid1 : List Nat := [118, 49]

/-- VolumeID of the unrelated volume in the C3 counterexample: its bytes
base64-encode (after the character substitutions) to exactly krb5cc_1, the
canonical cache name for credential UID 1. -/
def c3vid2 : List Nat := [146, 182, 249, 113, 207, 181]

/-- Mount flags engaging Kerberos with credential UID 1. -/
def c3flags : List String := ["sec=krb5", "cruid=1"]

/-- Secrets carrying the base64 ticket blob under the canonical name. -/
def c3secrets : List (String × String) := [("krb5cc_1", "QUJD")]

/-- Cache directory before the round trip: it holds the unrelated volume's
cache file. -/
def c3fs0 : KrbFS := ⟨.ok, [("krb5cc_1", Entry.file [1, 2, 3])]⟩

/-- Cache directory after ensureKerberosCache for the staged volume. -/
def c3fs1 : KrbFS :=
  ⟨.ok, [("krb5cc_1", Entry.symlink "/var/lib/kubelet/kerberos/djE="),
         ("djE=", Entry.file [65, 66, 67])]⟩

/-- C3 counterexample: the round trip for one volume destroys the cache
file of a distinct, unrelated volume whose derived filename coincides with
the canonical symlink name, so the claim's untouched-other-volumes clause
fails as universally stated. -/
theorem c3_counterexample :
    c3vid2 ≠ c3vid1 ∧
    volumeKerberosCacheName c3vid2 = "krb5cc_1" ∧
    fsLookup c3fs0.entries (volumeKerberosCacheName c3vid2) =
      some (Entry.file [1, 2, 3]) ∧
    ensureKerberosCache c3vid1 c3flags c3secrets c3fs0 = .ok (true, c3fs1) ∧
    (deleteKerberosCache c3vid1 c3fs1).1 = .ok () ∧
    fsLookup (deleteKerberosCache c3vid1 c3fs1).2.entries
      (volumeKerberosCacheName c3vid2) = none :=
  ⟨by decide, rfl, rfl, rfl, rfl, rfl⟩

/-- Witness for C3's amended theorem at the concrete round trip. -/
theorem c3_witness :
    ((∀ b ∈ c3vid1, b < 256) ∧
     ensureKerberosCache c3vid1 c3flags c3secrets c3fs0 = .ok (true, c3fs1) ∧
     getCredUID c3flags = .ok 1) ∧
    ((deleteKerberosCache c3vid1 c3fs1).1 = .ok () ∧
     (∀ n t, (n, Entry.symlink t) ∈ (deleteKerberosCache c3vid1 c3fs1).2.entries →
       t ≠ getKerberosFilePath (volumeKerberosCacheName c3vid1)) ∧
     fsLookup (deleteKerberosCache c3vid1 c3fs1).2.entries
       (volumeKerberosCacheName c3vid1) = none ∧
     (∀ (vid2 c : List Nat), vid2 ≠ c3vid1 → (∀ b ∈ vid2, b < 256) →
       volumeKerberosCacheName vid2 ≠ getKrb5CcacheName 1 →
       ((volumeKerberosCacheName vid2, Entry.file c) ∈ c3fs0.entries ↔
        (volumeKerberosCacheName vid2, Entry.file c) ∈
          (deleteKerberosCache c3vid1 c3fs1).2.entries))) :=
  ⟨⟨by decide, rfl, rfl⟩,
   c3_credential_cache_round_trip c3vid1 c3flags c3secrets c3fs0 c3fs1 1
     (by decide) rfl rfl⟩
